import Mathlib

/-!
Shallow embedding of the quick-calibration engine of `power-flux`
(`src/embedded/src/calibration/setupCalibration.cpp`, header
`src/embedded/src/calibration/setupCalibration.h`, constants
`src/embedded/src/config/config.h`).

Modelling conventions:
* `float` values are embedded as `ℚ`.  Every constant from `config.h` is
  taken at its decimal value (e.g. `5.1f` becomes `51/10`).
* The source compares Euclidean magnitudes (`Vector3D::magnitude()`,
  which calls `sqrt`) against nonnegative constant thresholds.  Squaring
  both sides of such a comparison is the same predicate over the
  nonnegative reals, so the embedding uses the squared magnitude `magSq`
  compared against the squared threshold; this avoids irrational values.
* `millis()` and the outcome of the transcendental rotation-angle test in
  `handleQuickWaitingRotation` (`acos(z/|a|)*180/π > ROTATION_THRESHOLD`)
  are environment inputs; each `processCalibration` call receives them in
  a `SensorInput` record.  No claim under verification depends on the
  numeric value of the rotation threshold, only on whether the test fired.
* The C++ sample buffers are heap arrays of capacity `QUICK_SAMPLES`
  indexed by `sampleCount`; only the first `sampleCount` slots are ever
  read, and they are read only after being freshly written since the last
  reset of `sampleCount`.  The embedding represents the stored window as a
  `List Vector3D` (the first `sampleCount` array slots): writing slot
  `sampleCount` and incrementing is `append`, and resetting `sampleCount`
  to `0` empties the list.  `Option` tracks whether the buffer is
  allocated (`none` = released / never allocated).
* Logging and the display/BLE notification calls have no effect on the
  engine state and are omitted.
-/

namespace PowerFlux

/-- Embeds `Vector3D` from `setupCalibration.h`: an (x, y, z) float triple. -/
structure Vector3D where
  x : ℚ
  y : ℚ
  z : ℚ
deriving DecidableEq, Repr

namespace Vector3D

/-- `Vector3D::operator+`. -/
def add (a b : Vector3D) : Vector3D := ⟨a.x + b.x, a.y + b.y, a.z + b.z⟩

/-- `Vector3D::operator-`. -/
def sub (a b : Vector3D) : Vector3D := ⟨a.x - b.x, a.y - b.y, a.z - b.z⟩

/-- `Vector3D::operator/` by a scalar. -/
def divScalar (a : Vector3D) (s : ℚ) : Vector3D := ⟨a.x / s, a.y / s, a.z / s⟩

/-- The square of `Vector3D::magnitude()` (`sqrt(x*x + y*y + z*z)` in the
source); magnitude comparisons against a nonnegative threshold `c` are
embedded as `magSq` comparisons against `c^2`. -/
def magSq (a : Vector3D) : ℚ := a.x * a.x + a.y * a.y + a.z * a.z

/-- The zero vector, the value of the default constructor `Vector3D()`. -/
def zero : Vector3D := ⟨0, 0, 0⟩

end Vector3D

-- Constants of `Config::Calibration` in `config.h`.
namespace Config

def GRAVITY_MAGNITUDE : ℚ := 1
def QUICK_SAMPLES : ℕ := 200
def MOVEMENT_TOLERANCE : ℚ := 20
def STILLNESS_THRESHOLD : ℚ := 51 / 10
def ROTATION_THRESHOLD : ℚ := 70
def STABLE_DURATION : ℕ := 1000
def GYRO_DEADBAND : ℚ := 1 / 20
def MIN_SCALE_FACTOR : ℚ := 1 / 2
def MAX_SCALE_FACTOR : ℚ := 2

end Config

/-- The `CalibrationState` enumeration of `setupCalibration.h`. -/
inductive CalibrationState where
  | IDLE
  | QUICK_STATIC_FLAT
  | QUICK_WAITING_ROTATION
  | QUICK_STABILIZING
  | QUICK_STATIC_SIDE
  | QUICK_COMPLETE
  | FAILED
deriving DecidableEq, Repr

/-- `CalibrationData` from `setupCalibration.h`: the committed calibration
coefficients read by the correction path. -/
structure CalibrationData where
  accelBias : Vector3D
  gyroBias : Vector3D
  accelScale : ℚ
  isValid : Bool
deriving DecidableEq, Repr

/-- `CorrectedData` from `setupCalibration.h`. -/
structure CorrectedData where
  accel : Vector3D
  gyro : Vector3D
  isValid : Bool
deriving DecidableEq, Repr

/-- The relevant `Error::Code` values from `utils/error.h`. -/
inductive ErrorCode where
  | NONE
  | CALIBRATION_FAILED
  | INVALID_STATE
  | MEMORY_ERROR
deriving DecidableEq, Repr

/-- The mutable fields of the `SetupCalibration` object, together with the
function-local `static uint32_t stableStartTime` of
`handleQuickStabilizing` — being a C++ `static`, it survives aborts and
restarts exactly like a member field would, so it belongs in the state. -/
structure EngineState where
  calibrationInProgress : Bool
  currentState : CalibrationState
  currentProgress : ℕ
  stateStartTime : ℕ
  sampleCount : ℕ
  accelSamples : Option (List Vector3D)
  gyroSamples : Option (List Vector3D)
  calibData : CalibrationData
  flatAccelMean : Vector3D
  sideAccelMean : Vector3D
  stableStartTime : ℕ
deriving DecidableEq, Repr

/-- What one `processCalibration` call reads from the environment: the IMU
sample (`M5.Imu.getAccelData` / `getGyroData`), the clock `millis()`, and
the Boolean outcome of the rotation-angle test of
`handleQuickWaitingRotation` (a transcendental comparison whose numeric
details no verified claim depends on). -/
structure SensorInput where
  accel : Vector3D
  gyro : Vector3D
  now : ℕ
  rotated : Bool
deriving DecidableEq, Repr

/-- The state established by the constructor `SetupCalibration(...)`:
members are zero-initialized / set in the initializer list, and the body
sets `calibData.isValid = false` and `calibData.accelScale = 1.0f`.  The
function-local static `stableStartTime` is zero-initialized at program
start. -/
def initialState : EngineState where
  calibrationInProgress := false
  currentState := CalibrationState.IDLE
  currentProgress := 0
  stateStartTime := 0
  sampleCount := 0
  accelSamples := none
  gyroSamples := none
  calibData := { accelBias := Vector3D.zero, gyroBias := Vector3D.zero,
                 accelScale := 1, isValid := false }
  flatAccelMean := Vector3D.zero
  sideAccelMean := Vector3D.zero
  stableStartTime := 0

/-- `SetupCalibration::calculateMean(samples, count)`: sum the first
`count` entries and divide by `count` (the division is float division by
`static_cast<float>(count)`). -/
def calculateMean (samples : List Vector3D) (count : ℕ) : Vector3D :=
  ((samples.take count).foldl Vector3D.add Vector3D.zero).divScalar (count : ℚ)

/-- `SetupCalibration::transitionTo(newState)`: set the state, record the
phase start time, reset the sample count to 0 (in the list model of the
stored window, resetting the count empties the window), and emit
progress (no state effect). -/
def transitionTo (s : EngineState) (now : ℕ) (newState : CalibrationState) : EngineState :=
  { s with currentState := newState
           stateStartTime := now
           sampleCount := 0
           accelSamples := s.accelSamples.map (fun _ => [])
           gyroSamples := s.gyroSamples.map (fun _ => []) }

/-- `SetupCalibration::calculateFlatPosition()`: record the mean of the
flat accel window in `flatAccelMean` and commit the mean of the flat gyro
window as `calibData.gyroBias`. -/
def calculateFlatPosition (s : EngineState) : EngineState :=
  let flatMean := calculateMean (s.accelSamples.getD []) Config.QUICK_SAMPLES
  let gyroMean := calculateMean (s.gyroSamples.getD []) Config.QUICK_SAMPLES
  { s with flatAccelMean := flatMean
           calibData := { s.calibData with gyroBias := gyroMean } }

/-- `SetupCalibration::handleQuickStaticFlat()`.  While the window is not
full: read a sample; if the gyro magnitude exceeds `MOVEMENT_TOLERANCE`,
reset `sampleCount` to 0 and return (movement rejection); otherwise store
the sample, and on every 10th sample update `currentProgress` to
`sampleCount * 50 / QUICK_SAMPLES`.  When full: compute the flat-position
results and transition to `QUICK_WAITING_ROTATION`. -/
def handleQuickStaticFlat (inp : SensorInput) (s : EngineState) : EngineState :=
  if s.sampleCount < Config.QUICK_SAMPLES then
    if Vector3D.magSq inp.gyro > Config.MOVEMENT_TOLERANCE ^ 2 then
      { s with sampleCount := 0
               accelSamples := s.accelSamples.map (fun _ => [])
               gyroSamples := s.gyroSamples.map (fun _ => []) }
    else
      let s' := { s with accelSamples := s.accelSamples.map (fun l => l ++ [inp.accel])
                         gyroSamples := s.gyroSamples.map (fun l => l ++ [inp.gyro])
                         sampleCount := s.sampleCount + 1 }
      if s'.sampleCount % 10 = 0 then
        { s' with currentProgress := s'.sampleCount * 50 / Config.QUICK_SAMPLES }
      else s'
  else
    transitionTo (calculateFlatPosition s) inp.now CalibrationState.QUICK_WAITING_ROTATION

/-- `SetupCalibration::handleQuickWaitingRotation()`: show the instruction
(no state effect) and transition to `QUICK_STABILIZING` once the
angle-from-vertical exceeds `ROTATION_THRESHOLD` (the test outcome is the
`rotated` input). -/
def handleQuickWaitingRotation (inp : SensorInput) (s : EngineState) : EngineState :=
  if inp.rotated then transitionTo s inp.now CalibrationState.QUICK_STABILIZING else s

/-- `SetupCalibration::handleQuickStabilizing()`.  The debounce timer is
the function-local `static uint32_t stableStartTime` (0 = un-started).  If
the gyro magnitude is below `STILLNESS_THRESHOLD`: start the timer if
un-started, else fire the transition to `QUICK_STATIC_SIDE` (resetting the
timer) once more than `STABLE_DURATION` ms have elapsed.  Any louder
reading resets the timer to un-started. -/
def handleQuickStabilizing (inp : SensorInput) (s : EngineState) : EngineState :=
  if Vector3D.magSq inp.gyro < Config.STILLNESS_THRESHOLD ^ 2 then
    if s.stableStartTime = 0 then
      { s with stableStartTime := inp.now }
    else if inp.now - s.stableStartTime > Config.STABLE_DURATION then
      transitionTo { s with stableStartTime := 0 } inp.now CalibrationState.QUICK_STATIC_SIDE
    else s
  else
    { s with stableStartTime := 0 }

/-- `SetupCalibration::calculateSidePosition()`: compute the side accel
mean, derive `accelScale = GRAVITY_MAGNITUDE / ((|flatMean.z| + |sideMean.x|)/2)`;
if the scale is outside `[MIN_SCALE_FACTOR, MAX_SCALE_FACTOR]`, transition
to `FAILED` and return; otherwise commit `accelBias`, set
`calibData.isValid = true` and transition to `QUICK_COMPLETE`. -/
def calculateSidePosition (now : ℕ) (s : EngineState) : EngineState :=
  let sideMean := calculateMean (s.accelSamples.getD []) Config.QUICK_SAMPLES
  let xMagnitude := |sideMean.x|
  let zMagnitude := |s.flatAccelMean.z|
  let averageMagnitude := (zMagnitude + xMagnitude) / 2
  let scale := Config.GRAVITY_MAGNITUDE / averageMagnitude
  let s1 := { s with sideAccelMean := sideMean
                     calibData := { s.calibData with accelScale := scale } }
  if scale < Config.MIN_SCALE_FACTOR ∨ scale > Config.MAX_SCALE_FACTOR then
    transitionTo s1 now CalibrationState.FAILED
  else
    let s2 := { s1 with
      calibData := { s1.calibData with
        accelBias := ⟨s.flatAccelMean.x * scale,
                      (s.flatAccelMean.y + sideMean.y) * scale / 2,
                      sideMean.z * scale⟩
        isValid := true } }
    transitionTo s2 now CalibrationState.QUICK_COMPLETE

/-- `SetupCalibration::handleQuickStaticSide()`: like the flat handler
(progress offset by 50), except that when the window is full it calls
`calculateSidePosition()` and then — unconditionally, even when
`calculateSidePosition` already transitioned to `FAILED` — transitions to
`QUICK_COMPLETE`. -/
def handleQuickStaticSide (inp : SensorInput) (s : EngineState) : EngineState :=
  if s.sampleCount < Config.QUICK_SAMPLES then
    if Vector3D.magSq inp.gyro > Config.MOVEMENT_TOLERANCE ^ 2 then
      { s with sampleCount := 0
               accelSamples := s.accelSamples.map (fun _ => [])
               gyroSamples := s.gyroSamples.map (fun _ => []) }
    else
      let s' := { s with accelSamples := s.accelSamples.map (fun l => l ++ [inp.accel])
                         gyroSamples := s.gyroSamples.map (fun l => l ++ [inp.gyro])
                         sampleCount := s.sampleCount + 1 }
      if s'.sampleCount % 10 = 0 then
        { s' with currentProgress := 50 + s'.sampleCount * 50 / Config.QUICK_SAMPLES }
      else s'
  else
    transitionTo (calculateSidePosition inp.now s) inp.now CalibrationState.QUICK_COMPLETE

/-- `SetupCalibration::processCalibration()`: dispatch on the current
state; a no-op when no calibration is in progress; the terminal states
clear `calibrationInProgress`.  The `default` branch (`IDLE`) only logs. -/
def processCalibration (inp : SensorInput) (s : EngineState) : EngineState :=
  if !s.calibrationInProgress then s
  else
    match s.currentState with
    | CalibrationState.QUICK_STATIC_FLAT => handleQuickStaticFlat inp s
    | CalibrationState.QUICK_WAITING_ROTATION => handleQuickWaitingRotation inp s
    | CalibrationState.QUICK_STABILIZING => handleQuickStabilizing inp s
    | CalibrationState.QUICK_STATIC_SIDE => handleQuickStaticSide inp s
    | CalibrationState.QUICK_COMPLETE => { s with calibrationInProgress := false }
    | CalibrationState.FAILED => { s with calibrationInProgress := false }
    | CalibrationState.IDLE => s

/-- `SetupCalibration::startQuickCalibration()`.  Rejected with
`INVALID_STATE` while a calibration is in progress.  Otherwise the sample
buffers are (re)allocated; `allocOk` is the outcome of the allocation
(the source has two failure paths — the null check returning
`MEMORY_ERROR` and the `catch (...)` returning `CALIBRATION_FAILED`; both
return an error without touching the engine fields, modelled here as the
`MEMORY_ERROR` path).  On success: mark in progress, clear
`calibData.isValid`, and transition to `QUICK_STATIC_FLAT`. -/
def startQuickCalibration (allocOk : Bool) (now : ℕ) (s : EngineState) :
    EngineState × ErrorCode :=
  if s.calibrationInProgress then
    (s, ErrorCode.INVALID_STATE)
  else if !allocOk then
    (s, ErrorCode.MEMORY_ERROR)
  else
    let s1 := { s with accelSamples := some []
                       gyroSamples := some []
                       calibrationInProgress := true
                       calibData := { s.calibData with isValid := false } }
    (transitionTo s1 now CalibrationState.QUICK_STATIC_FLAT, ErrorCode.NONE)

/-- `SetupCalibration::abortCalibration()`: a no-op when no calibration is
in progress; otherwise release both sample buffers, clear
`calibrationInProgress` and `calibData.isValid`, and transition to
`FAILED`.  Note: the function-local static `stableStartTime` of
`handleQuickStabilizing` is not (and cannot be) touched here. -/
def abortCalibration (now : ℕ) (s : EngineState) : EngineState :=
  if !s.calibrationInProgress then s
  else
    transitionTo
      { s with accelSamples := none
               gyroSamples := none
               calibrationInProgress := false
               calibData := { s.calibData with isValid := false } }
      now CalibrationState.FAILED

/-- `SetupCalibration::correctSensorData(rawAccel, rawGyro)`.  A member
function, so the embedding threads the engine state through; the body
reads `calibData` and mutates nothing.  Invalid calibration: pass the
inputs through flagged invalid.  Valid: `accel = raw*scale − bias`,
`gyro = raw − gyroBias` with each axis snapped to exactly `0.0` when its
absolute value is below `GYRO_DEADBAND`, flagged valid. -/
def correctSensorData (s : EngineState) (rawAccel rawGyro : Vector3D) :
    CorrectedData × EngineState :=
  if !s.calibData.isValid then
    ({ accel := rawAccel, gyro := rawGyro, isValid := false }, s)
  else
    let accel : Vector3D :=
      ⟨rawAccel.x * s.calibData.accelScale - s.calibData.accelBias.x,
       rawAccel.y * s.calibData.accelScale - s.calibData.accelBias.y,
       rawAccel.z * s.calibData.accelScale - s.calibData.accelBias.z⟩
    let correctedGyro := Vector3D.sub rawGyro s.calibData.gyroBias
    let gyro : Vector3D :=
      ⟨if |correctedGyro.x| < Config.GYRO_DEADBAND then 0 else correctedGyro.x,
       if |correctedGyro.y| < Config.GYRO_DEADBAND then 0 else correctedGyro.y,
       if |correctedGyro.z| < Config.GYRO_DEADBAND then 0 else correctedGyro.z⟩
    ({ accel := accel, gyro := gyro, isValid := true }, s)

/-! Concrete scenario states used by the theorems below.  Each is an
engine state the source can reach (written as the record it would hold at
that point of a run), together with the sensor inputs fed to it. -/

/-- A side-window sample of very small magnitude (0.01 g on the x axis),
as produced by a mis-scaled sensor; 200 of these fill the side window. -/
def smallSideSample : Vector3D := ⟨1 / 100, 0, 0⟩

/-- The engine state at the moment the side window has just been filled
with 200 copies of `smallSideSample`, after a flat phase whose accel mean
was `(0, 0, 1/100)`: in progress, in `QUICK_STATIC_SIDE`, windows full. -/
def stateSideFullSmall : EngineState :=
  { initialState with
    calibrationInProgress := true
    currentState := CalibrationState.QUICK_STATIC_SIDE
    sampleCount := 200
    accelSamples := some (List.replicate 200 smallSideSample)
    gyroSamples := some (List.replicate 200 Vector3D.zero)
    flatAccelMean := ⟨0, 0, 1 / 100⟩ }

/-- A perfectly quiet sensor reading at `millis() = 5000`. -/
def inputQuiet5000 : SensorInput := ⟨Vector3D.zero, Vector3D.zero, 5000, false⟩

/-- Run-1 state for the stale-timer scenario: the engine is in
`QUICK_STABILIZING` and observed one still gyro sample at `millis() = 500`,
which started the debounce timer (`stableStartTime = 500`). -/
def stateStabilizingRun1 : EngineState :=
  { initialState with
    calibrationInProgress := true
    currentState := CalibrationState.QUICK_STABILIZING
    accelSamples := some []
    gyroSamples := some []
    flatAccelMean := ⟨0, 0, 1⟩
    stableStartTime := 500 }

/-- Run-2 state for the stale-timer scenario: after the run-1 abort and a
restart, the engine has re-entered `QUICK_STABILIZING`; the function-local
static `stableStartTime` still holds the stale value 500 from run 1. -/
def stateStabilizingRun2 : EngineState :=
  { initialState with
    calibrationInProgress := true
    currentState := CalibrationState.QUICK_STABILIZING
    accelSamples := some []
    gyroSamples := some []
    flatAccelMean := ⟨0, 0, 1⟩
    stableStartTime := 500 }

/-- The same stabilizing state with the debounce timer correctly
un-started, for contrast. -/
def stateStabilizingFresh : EngineState :=
  { stateStabilizingRun2 with stableStartTime := 0 }

/-- A perfectly still gyro reading at `millis() = 2000`. -/
def inputStill2000 : SensorInput := ⟨⟨0, 0, 1⟩, Vector3D.zero, 2000, false⟩

/-- An idle engine holding a previously committed, valid calibration
result (e.g. after a completed run). -/
def stateWithValidCalib : EngineState :=
  { initialState with
    calibData := { accelBias := ⟨1 / 10, 0, 0⟩, gyroBias := ⟨0, 1 / 10, 0⟩,
                   accelScale := 11 / 10, isValid := true } }

/-- The engine mid-run at the moment the flat window has just been filled
(accel constantly `(0, 0, 1)`, gyro constantly `(1/100, 0, 0)`), while
the coefficient fields of a previously committed result are still held
in `calibData` (`isValid` was cleared by the accepted start). -/
def stateFlatFullWithCalib : EngineState :=
  { stateWithValidCalib with
    calibrationInProgress := true
    currentState := CalibrationState.QUICK_STATIC_FLAT
    sampleCount := 200
    accelSamples := some (List.replicate 200 ⟨0, 0, 1⟩)
    gyroSamples := some (List.replicate 200 ⟨1 / 100, 0, 0⟩)
    calibData := { stateWithValidCalib.calibData with isValid := false } }

/-- A flat-phase state with the window partially filled (3 of 200
samples collected). -/
def stateFlatPartial : EngineState :=
  { initialState with
    calibrationInProgress := true
    currentState := CalibrationState.QUICK_STATIC_FLAT
    sampleCount := 3
    accelSamples := some (List.replicate 3 ⟨0, 0, 1⟩)
    gyroSamples := some (List.replicate 3 Vector3D.zero) }

/-- A sensor reading whose gyro magnitude (30) exceeds
`MOVEMENT_TOLERANCE` (20). -/
def inputMoving : SensorInput := ⟨⟨0, 0, 1⟩, ⟨30, 0, 0⟩, 100, false⟩

/-- The engine state at the moment the flat window has just been filled:
accel constantly `(0, 0, 1)`, gyro constantly `(1/100, 0, 0)`. -/
def stateFlatFull : EngineState :=
  { initialState with
    calibrationInProgress := true
    currentState := CalibrationState.QUICK_STATIC_FLAT
    sampleCount := 200
    accelSamples := some (List.replicate 200 ⟨0, 0, 1⟩)
    gyroSamples := some (List.replicate 200 ⟨1 / 100, 0, 0⟩) }

/-- The engine state at the moment the side window has just been filled
with ideal side-position samples `(1, 0, 0)`, after a flat phase whose
accel mean was `(0, 0, 1)`. -/
def stateSideFullGood : EngineState :=
  { initialState with
    calibrationInProgress := true
    currentState := CalibrationState.QUICK_STATIC_SIDE
    sampleCount := 200
    accelSamples := some (List.replicate 200 ⟨1, 0, 0⟩)
    gyroSamples := some (List.replicate 200 Vector3D.zero)
    flatAccelMean := ⟨0, 0, 1⟩ }

/-- All gyro samples stored in the (allocated) sample window have squared
magnitude at most `MOVEMENT_TOLERANCE^2`, i.e. magnitude at most
`MOVEMENT_TOLERANCE`. -/
def gyroWindowBounded (s : EngineState) : Prop :=
  ∀ v ∈ s.gyroSamples.getD [], Vector3D.magSq v ≤ Config.MOVEMENT_TOLERANCE ^ 2

/-- The invariant of claim C10: the stored gyro window is bounded by the
movement tolerance, and so is the committed `gyroBias`. -/
def gyroInv (s : EngineState) : Prop :=
  gyroWindowBounded s ∧
    Vector3D.magSq s.calibData.gyroBias ≤ Config.MOVEMENT_TOLERANCE ^ 2

/-! Helper lemmas. -/

lemma foldl_add_replicate (n : ℕ) (v acc : Vector3D) :
    (List.replicate n v).foldl Vector3D.add acc =
      ⟨acc.x + n * v.x, acc.y + n * v.y, acc.z + n * v.z⟩ := by
  induction n generalizing acc with
  | zero => simp
  | succ k ih =>
    rw [List.replicate_succ, List.foldl_cons, ih]
    simp only [Vector3D.add, Vector3D.mk.injEq]
    refine ⟨?_, ?_, ?_⟩ <;> push_cast <;> ring

lemma calculateMean_replicate (n : ℕ) (hn : n ≠ 0) (v : Vector3D) :
    calculateMean (List.replicate n v) n = v := by
  have hq : (n : ℚ) ≠ 0 := Nat.cast_ne_zero.mpr hn
  obtain ⟨vx, vy, vz⟩ := v
  simp only [calculateMean, List.take_replicate, min_self, foldl_add_replicate,
    Vector3D.divScalar, Vector3D.zero, Vector3D.mk.injEq]
  refine ⟨?_, ?_, ?_⟩ <;> · rw [zero_add]; field_simp

lemma processCalibration_dispatch_flat (inp : SensorInput) (s : EngineState)
    (hp : s.calibrationInProgress = true)
    (hs : s.currentState = CalibrationState.QUICK_STATIC_FLAT) :
    processCalibration inp s = handleQuickStaticFlat inp s := by
  simp [processCalibration, hp, hs]

lemma processCalibration_dispatch_rotation (inp : SensorInput) (s : EngineState)
    (hp : s.calibrationInProgress = true)
    (hs : s.currentState = CalibrationState.QUICK_WAITING_ROTATION) :
    processCalibration inp s = handleQuickWaitingRotation inp s := by
  simp [processCalibration, hp, hs]

lemma processCalibration_dispatch_stabilizing (inp : SensorInput) (s : EngineState)
    (hp : s.calibrationInProgress = true)
    (hs : s.currentState = CalibrationState.QUICK_STABILIZING) :
    processCalibration inp s = handleQuickStabilizing inp s := by
  simp [processCalibration, hp, hs]

lemma processCalibration_dispatch_side (inp : SensorInput) (s : EngineState)
    (hp : s.calibrationInProgress = true)
    (hs : s.currentState = CalibrationState.QUICK_STATIC_SIDE) :
    processCalibration inp s = handleQuickStaticSide inp s := by
  simp [processCalibration, hp, hs]

lemma handleQuickStaticFlat_full (inp : SensorInput) (s : EngineState)
    (h : ¬ s.sampleCount < Config.QUICK_SAMPLES) :
    handleQuickStaticFlat inp s =
      transitionTo (calculateFlatPosition s) inp.now
        CalibrationState.QUICK_WAITING_ROTATION := by
  simp [handleQuickStaticFlat, h]

lemma handleQuickStaticSide_full (inp : SensorInput) (s : EngineState)
    (h : ¬ s.sampleCount < Config.QUICK_SAMPLES) :
    handleQuickStaticSide inp s =
      transitionTo (calculateSidePosition inp.now s) inp.now
        CalibrationState.QUICK_COMPLETE := by
  simp [handleQuickStaticSide, h]

lemma calculateSidePosition_fail (now : ℕ) (s : EngineState)
    (h : Config.GRAVITY_MAGNITUDE /
        ((|s.flatAccelMean.z| +
          |(calculateMean (s.accelSamples.getD []) Config.QUICK_SAMPLES).x|) / 2) <
          Config.MIN_SCALE_FACTOR ∨
        Config.MAX_SCALE_FACTOR <
          Config.GRAVITY_MAGNITUDE /
        ((|s.flatAccelMean.z| +
          |(calculateMean (s.accelSamples.getD []) Config.QUICK_SAMPLES).x|) / 2)) :
    (calculateSidePosition now s).currentState = CalibrationState.FAILED ∧
    (calculateSidePosition now s).calibData.isValid = s.calibData.isValid ∧
    (calculateSidePosition now s).calibData.accelScale =
      Config.GRAVITY_MAGNITUDE /
        ((|s.flatAccelMean.z| +
          |(calculateMean (s.accelSamples.getD []) Config.QUICK_SAMPLES).x|) / 2) := by
  rw [calculateSidePosition]
  rcases h with h | h
  · simp only [if_pos (Or.inl h), transitionTo]
    exact ⟨trivial, trivial, trivial⟩
  · simp only [if_pos (Or.inr (by exact h)), transitionTo]
    exact ⟨trivial, trivial, trivial⟩

lemma calculateSidePosition_ok (now : ℕ) (s : EngineState)
    (h : ¬ (Config.GRAVITY_MAGNITUDE /
        ((|s.flatAccelMean.z| +
          |(calculateMean (s.accelSamples.getD []) Config.QUICK_SAMPLES).x|) / 2) <
          Config.MIN_SCALE_FACTOR ∨
        Config.MAX_SCALE_FACTOR <
          Config.GRAVITY_MAGNITUDE /
        ((|s.flatAccelMean.z| +
          |(calculateMean (s.accelSamples.getD []) Config.QUICK_SAMPLES).x|) / 2))) :
    (calculateSidePosition now s).calibData.accelScale =
      Config.GRAVITY_MAGNITUDE /
        ((|s.flatAccelMean.z| +
          |(calculateMean (s.accelSamples.getD []) Config.QUICK_SAMPLES).x|) / 2) ∧
    (calculateSidePosition now s).calibData.accelBias =
      ⟨s.flatAccelMean.x *
         (Config.GRAVITY_MAGNITUDE /
           ((|s.flatAccelMean.z| +
             |(calculateMean (s.accelSamples.getD []) Config.QUICK_SAMPLES).x|) / 2)),
       (s.flatAccelMean.y +
          (calculateMean (s.accelSamples.getD []) Config.QUICK_SAMPLES).y) *
         (Config.GRAVITY_MAGNITUDE /
           ((|s.flatAccelMean.z| +
             |(calculateMean (s.accelSamples.getD []) Config.QUICK_SAMPLES).x|) / 2)) / 2,
       (calculateMean (s.accelSamples.getD []) Config.QUICK_SAMPLES).z *
         (Config.GRAVITY_MAGNITUDE /
           ((|s.flatAccelMean.z| +
             |(calculateMean (s.accelSamples.getD []) Config.QUICK_SAMPLES).x|) / 2))⟩ ∧
    (calculateSidePosition now s).calibData.isValid = true ∧
    (calculateSidePosition now s).calibData.gyroBias = s.calibData.gyroBias ∧
    (calculateSidePosition now s).currentState = CalibrationState.QUICK_COMPLETE := by
  rw [calculateSidePosition]
  simp only [if_neg h, transitionTo]
  exact ⟨trivial, trivial, trivial, trivial, trivial⟩

lemma magSq_nonneg (v : Vector3D) : 0 ≤ Vector3D.magSq v := by
  simp only [Vector3D.magSq]
  nlinarith [mul_self_nonneg v.x, mul_self_nonneg v.y, mul_self_nonneg v.z]

lemma dot_le (u v : Vector3D) (a b : ℚ) (ha : 0 ≤ a) (hb : 0 ≤ b)
    (hu : Vector3D.magSq u ≤ a ^ 2) (hv : Vector3D.magSq v ≤ b ^ 2) :
    u.x * v.x + u.y * v.y + u.z * v.z ≤ a * b := by
  have hcs : (u.x * v.x + u.y * v.y + u.z * v.z) ^ 2 ≤
      Vector3D.magSq u * Vector3D.magSq v := by
    simp only [Vector3D.magSq]
    nlinarith [sq_nonneg (u.x * v.y - u.y * v.x), sq_nonneg (u.x * v.z - u.z * v.x),
      sq_nonneg (u.y * v.z - u.z * v.y)]
  have h2 : (u.x * v.x + u.y * v.y + u.z * v.z) ^ 2 ≤ (a * b) ^ 2 := by
    calc (u.x * v.x + u.y * v.y + u.z * v.z) ^ 2 ≤
        Vector3D.magSq u * Vector3D.magSq v := hcs
      _ ≤ a ^ 2 * b ^ 2 :=
        mul_le_mul hu hv (magSq_nonneg v) (sq_nonneg a)
      _ = (a * b) ^ 2 := by ring
  nlinarith [h2, mul_nonneg ha hb]

lemma magSq_add_le (u v : Vector3D) (a b : ℚ) (ha : 0 ≤ a) (hb : 0 ≤ b)
    (hu : Vector3D.magSq u ≤ a ^ 2) (hv : Vector3D.magSq v ≤ b ^ 2) :
    Vector3D.magSq (Vector3D.add u v) ≤ (a + b) ^ 2 := by
  have hd := dot_le u v a b ha hb hu hv
  simp only [Vector3D.magSq, Vector3D.add] at *
  nlinarith [hd, hu, hv]

lemma magSq_foldl_add_le (l : List Vector3D) (T : ℚ) (hT : 0 ≤ T)
    (h : ∀ v ∈ l, Vector3D.magSq v ≤ T ^ 2) :
    ∀ acc : Vector3D, ∀ a : ℚ, 0 ≤ a → Vector3D.magSq acc ≤ a ^ 2 →
      Vector3D.magSq (l.foldl Vector3D.add acc) ≤ (a + l.length * T) ^ 2 := by
  induction l with
  | nil =>
    intro acc a ha hacc
    simpa using hacc
  | cons w t ih =>
    intro acc a ha hacc
    rw [List.foldl_cons]
    have hw : Vector3D.magSq w ≤ T ^ 2 := h w (List.mem_cons_self w t)
    have hstep : Vector3D.magSq (Vector3D.add acc w) ≤ (a + T) ^ 2 :=
      magSq_add_le acc w a T ha hT hacc hw
    have ht : ∀ v ∈ t, Vector3D.magSq v ≤ T ^ 2 :=
      fun v hv => h v (List.mem_cons_of_mem w hv)
    have := ih ht (Vector3D.add acc w) (a + T) (by linarith) hstep
    calc Vector3D.magSq (t.foldl Vector3D.add (Vector3D.add acc w)) ≤
        (a + T + t.length * T) ^ 2 := this
      _ = (a + (t.length + 1 : ℕ) * T) ^ 2 := by push_cast; ring
      _ = (a + (w :: t).length * T) ^ 2 := by rw [List.length_cons]

lemma magSq_divScalar (v : Vector3D) (c : ℚ) :
    Vector3D.magSq (v.divScalar c) = Vector3D.magSq v / c ^ 2 := by
  simp only [Vector3D.magSq, Vector3D.divScalar]
  ring

lemma magSq_calculateMean_le (l : List Vector3D) (T : ℚ) (hT : 0 ≤ T)
    (h : ∀ v ∈ l, Vector3D.magSq v ≤ T ^ 2) :
    Vector3D.magSq (calculateMean l Config.QUICK_SAMPLES) ≤ T ^ 2 := by
  have hmem : ∀ v ∈ l.take Config.QUICK_SAMPLES, Vector3D.magSq v ≤ T ^ 2 :=
    fun v hv => h v (List.mem_of_mem_take hv)
  have hlen : (l.take Config.QUICK_SAMPLES).length ≤ Config.QUICK_SAMPLES := by
    simp [List.length_take_le]
  have hz : Vector3D.magSq Vector3D.zero ≤ (0 : ℚ) ^ 2 := by
    simp [Vector3D.magSq, Vector3D.zero]
  have hsum := magSq_foldl_add_le (l.take Config.QUICK_SAMPLES) T hT hmem
    Vector3D.zero 0 le_rfl hz
  rw [zero_add] at hsum
  have hmono : ((l.take Config.QUICK_SAMPLES).length * T) ^ 2 ≤
      ((Config.QUICK_SAMPLES : ℚ) * T) ^ 2 := by
    have h1 : ((l.take Config.QUICK_SAMPLES).length : ℚ) ≤
        (Config.QUICK_SAMPLES : ℚ) := by exact_mod_cast hlen
    have h2 : (0 : ℚ) ≤ (l.take Config.QUICK_SAMPLES).length * T := by positivity
    have h3 : ((l.take Config.QUICK_SAMPLES).length : ℚ) * T ≤
        (Config.QUICK_SAMPLES : ℚ) * T := by
      exact mul_le_mul_of_nonneg_right h1 hT
    exact pow_le_pow_left₀ h2 h3 2
  rw [calculateMean, magSq_divScalar]
  have hq : (0 : ℚ) < ((Config.QUICK_SAMPLES : ℕ) : ℚ) ^ 2 := by
    norm_num [Config.QUICK_SAMPLES]
  rw [div_le_iff₀ hq]
  calc Vector3D.magSq ((l.take Config.QUICK_SAMPLES).foldl Vector3D.add Vector3D.zero) ≤
      ((l.take Config.QUICK_SAMPLES).length * T) ^ 2 := hsum
    _ ≤ ((Config.QUICK_SAMPLES : ℚ) * T) ^ 2 := hmono
    _ = T ^ 2 * ((Config.QUICK_SAMPLES : ℕ) : ℚ) ^ 2 := by ring

lemma getD_map_const_nil (o : Option (List Vector3D)) :
    (o.map (fun _ => ([] : List Vector3D))).getD [] = [] := by
  cases o <;> rfl

lemma gyroInv_transitionTo (s : EngineState) (now : ℕ) (st : CalibrationState)
    (h : gyroInv s) : gyroInv (transitionTo s now st) := by
  refine ⟨?_, h.2⟩
  intro v hv
  simp only [transitionTo, getD_map_const_nil] at hv
  exact absurd hv (List.not_mem_nil v)

lemma gyroInv_calculateFlatPosition (s : EngineState) (h : gyroInv s) :
    gyroInv (calculateFlatPosition s) := by
  refine ⟨h.1, ?_⟩
  exact magSq_calculateMean_le (s.gyroSamples.getD []) Config.MOVEMENT_TOLERANCE
    (by norm_num [Config.MOVEMENT_TOLERANCE]) h.1

lemma gyroInv_handleQuickStaticFlat (inp : SensorInput) (s : EngineState)
    (h : gyroInv s) : gyroInv (handleQuickStaticFlat inp s) := by
  obtain ⟨hw, hb⟩ := h
  rw [handleQuickStaticFlat]
  by_cases hc : s.sampleCount < Config.QUICK_SAMPLES
  · rw [if_pos hc]
    by_cases hm : Vector3D.magSq inp.gyro > Config.MOVEMENT_TOLERANCE ^ 2
    · rw [if_pos hm]
      refine ⟨?_, hb⟩
      intro v hv
      rw [getD_map_const_nil] at hv
      exact absurd hv (List.not_mem_nil v)
    · rw [if_neg hm]
      have hstore : ∀ v ∈ (s.gyroSamples.map (fun l => l ++ [inp.gyro])).getD [],
          Vector3D.magSq v ≤ Config.MOVEMENT_TOLERANCE ^ 2 := by
        intro v hv
        cases hgs : s.gyroSamples with
        | none => rw [hgs] at hv; exact absurd hv (List.not_mem_nil v)
        | some l =>
          rw [hgs] at hv
          rcases List.mem_append.mp hv with hvl | hvg
          · exact hw v (by rw [hgs]; exact hvl)
          · rw [List.mem_singleton.mp hvg]
            exact le_of_not_lt hm
      by_cases hmod : (s.sampleCount + 1) % 10 = 0
      · rw [if_pos hmod]; exact ⟨hstore, hb⟩
      · rw [if_neg hmod]; exact ⟨hstore, hb⟩
  · rw [if_neg hc]
    exact gyroInv_transitionTo _ _ _ (gyroInv_calculateFlatPosition s ⟨hw, hb⟩)

lemma gyroInv_calculateSidePosition (now : ℕ) (s : EngineState)
    (h : gyroInv s) : gyroInv (calculateSidePosition now s) := by
  rw [calculateSidePosition]
  split
  · exact gyroInv_transitionTo _ _ _ ⟨h.1, h.2⟩
  · exact gyroInv_transitionTo _ _ _ ⟨h.1, h.2⟩

lemma gyroInv_handleQuickStaticSide (inp : SensorInput) (s : EngineState)
    (h : gyroInv s) : gyroInv (handleQuickStaticSide inp s) := by
  obtain ⟨hw, hb⟩ := h
  rw [handleQuickStaticSide]
  by_cases hc : s.sampleCount < Config.QUICK_SAMPLES
  · rw [if_pos hc]
    by_cases hm : Vector3D.magSq inp.gyro > Config.MOVEMENT_TOLERANCE ^ 2
    · rw [if_pos hm]
      refine ⟨?_, hb⟩
      intro v hv
      rw [getD_map_const_nil] at hv
      exact absurd hv (List.not_mem_nil v)
    · rw [if_neg hm]
      have hstore : ∀ v ∈ (s.gyroSamples.map (fun l => l ++ [inp.gyro])).getD [],
          Vector3D.magSq v ≤ Config.MOVEMENT_TOLERANCE ^ 2 := by
        intro v hv
        cases hgs : s.gyroSamples with
        | none => rw [hgs] at hv; exact absurd hv (List.not_mem_nil v)
        | some l =>
          rw [hgs] at hv
          rcases List.mem_append.mp hv with hvl | hvg
          · exact hw v (by rw [hgs]; exact hvl)
          · rw [List.mem_singleton.mp hvg]
            exact le_of_not_lt hm
      by_cases hmod : (s.sampleCount + 1) % 10 = 0
      · rw [if_pos hmod]; exact ⟨hstore, hb⟩
      · rw [if_neg hmod]; exact ⟨hstore, hb⟩
  · rw [if_neg hc]
    exact gyroInv_transitionTo _ _ _
      (gyroInv_calculateSidePosition inp.now s ⟨hw, hb⟩)

lemma gyroInv_handleQuickWaitingRotation (inp : SensorInput) (s : EngineState)
    (h : gyroInv s) : gyroInv (handleQuickWaitingRotation inp s) := by
  rw [handleQuickWaitingRotation]
  split
  · exact gyroInv_transitionTo _ _ _ h
  · exact h

lemma gyroInv_handleQuickStabilizing (inp : SensorInput) (s : EngineState)
    (h : gyroInv s) : gyroInv (handleQuickStabilizing inp s) := by
  rw [handleQuickStabilizing]
  split
  · split
    · exact ⟨h.1, h.2⟩
    · split
      · exact gyroInv_transitionTo _ _ _ ⟨h.1, h.2⟩
      · exact h
  · exact ⟨h.1, h.2⟩

lemma gyroInv_processCalibration (inp : SensorInput) (s : EngineState)
    (h : gyroInv s) : gyroInv (processCalibration inp s) := by
  rw [processCalibration]
  cases hp : s.calibrationInProgress with
  | false => exact h
  | true =>
    simp only [Bool.not_true, Bool.false_eq_true, if_false]
    cases hs : s.currentState
    · exact h
    · exact gyroInv_handleQuickStaticFlat inp s h
    · exact gyroInv_handleQuickWaitingRotation inp s h
    · exact gyroInv_handleQuickStabilizing inp s h
    · exact gyroInv_handleQuickStaticSide inp s h
    · exact ⟨h.1, h.2⟩
    · exact ⟨h.1, h.2⟩

lemma gyroInv_startQuickCalibration (allocOk : Bool) (now : ℕ) (s : EngineState)
    (h : gyroInv s) : gyroInv (startQuickCalibration allocOk now s).1 := by
  rw [startQuickCalibration]
  split
  · exact h
  · split
    · exact h
    · refine gyroInv_transitionTo _ _ _ ⟨?_, h.2⟩
      intro v hv
      exact absurd hv (List.not_mem_nil v)

lemma gyroInv_abortCalibration (now : ℕ) (s : EngineState)
    (h : gyroInv s) : gyroInv (abortCalibration now s) := by
  rw [abortCalibration]
  split
  · exact h
  · refine gyroInv_transitionTo _ _ _ ⟨?_, h.2⟩
    intro v hv
    exact absurd hv (List.not_mem_nil v)

/-! Claim theorems. -/

/-- C3: for every raw accel/gyro input, when the committed calibration is
valid, `correctSensorData` returns `accel = raw * accelScale − accelBias`
component-wise and `gyro = raw − gyroBias`, where every gyro axis whose
absolute corrected value is below `GYRO_DEADBAND` is replaced by exactly
`0.0`, and the result is flagged valid. -/
theorem C3_correction_valid_formula (s : EngineState) (ra rg : Vector3D)
    (h : s.calibData.isValid = true) :
    (correctSensorData s ra rg).1.accel =
      ⟨ra.x * s.calibData.accelScale - s.calibData.accelBias.x,
       ra.y * s.calibData.accelScale - s.calibData.accelBias.y,
       ra.z * s.calibData.accelScale - s.calibData.accelBias.z⟩ ∧
    (correctSensorData s ra rg).1.gyro =
      ⟨if |rg.x - s.calibData.gyroBias.x| < Config.GYRO_DEADBAND then 0
        else rg.x - s.calibData.gyroBias.x,
       if |rg.y - s.calibData.gyroBias.y| < Config.GYRO_DEADBAND then 0
        else rg.y - s.calibData.gyroBias.y,
       if |rg.z - s.calibData.gyroBias.z| < Config.GYRO_DEADBAND then 0
        else rg.z - s.calibData.gyroBias.z⟩ ∧
    (|rg.x - s.calibData.gyroBias.x| < Config.GYRO_DEADBAND →
      (correctSensorData s ra rg).1.gyro.x = 0) ∧
    (|rg.y - s.calibData.gyroBias.y| < Config.GYRO_DEADBAND →
      (correctSensorData s ra rg).1.gyro.y = 0) ∧
    (|rg.z - s.calibData.gyroBias.z| < Config.GYRO_DEADBAND →
      (correctSensorData s ra rg).1.gyro.z = 0) ∧
    (correctSensorData s ra rg).1.isValid = true := by
  have e : (correctSensorData s ra rg).1 =
      { accel := ⟨ra.x * s.calibData.accelScale - s.calibData.accelBias.x,
                  ra.y * s.calibData.accelScale - s.calibData.accelBias.y,
                  ra.z * s.calibData.accelScale - s.calibData.accelBias.z⟩,
        gyro := ⟨if |rg.x - s.calibData.gyroBias.x| < Config.GYRO_DEADBAND then 0
                  else rg.x - s.calibData.gyroBias.x,
                 if |rg.y - s.calibData.gyroBias.y| < Config.GYRO_DEADBAND then 0
                  else rg.y - s.calibData.gyroBias.y,
                 if |rg.z - s.calibData.gyroBias.z| < Config.GYRO_DEADBAND then 0
                  else rg.z - s.calibData.gyroBias.z⟩,
        isValid := true } := by
    rw [correctSensorData]
    simp only [h, Bool.not_true, Bool.false_eq_true, if_false, Vector3D.sub]
  rw [e]
  refine ⟨rfl, rfl, ?_, ?_, ?_, rfl⟩
  · intro hx; exact if_pos hx
  · intro hy; exact if_pos hy
  · intro hz; exact if_pos hz

/-- Witness for C3: a valid calibration with `gyroBias = (0, 1/10, 0)` and
a raw gyro `(0, 11/100, 0)` whose corrected y-axis value `1/100` lies
below the deadband and is snapped to exactly 0; the raw accel `(1, 0, 0)`
is scaled by `11/10` and shifted by the bias `(1/10, 0, 0)`. -/
theorem C3_correction_valid_formula_witness :
    stateWithValidCalib.calibData.isValid = true ∧
    (correctSensorData stateWithValidCalib ⟨1, 0, 0⟩ ⟨0, 11 / 100, 0⟩).1.gyro.y = 0 ∧
    (correctSensorData stateWithValidCalib ⟨1, 0, 0⟩ ⟨0, 11 / 100, 0⟩).1.isValid = true := by
  have h := C3_correction_valid_formula stateWithValidCalib ⟨1, 0, 0⟩ ⟨0, 11 / 100, 0⟩ rfl
  refine ⟨rfl, ?_, h.2.2.2.2.2⟩
  refine h.2.2.2.1 ?_
  have habs : |(1 : ℚ) / 100| = 1 / 100 := abs_of_pos (by norm_num)
  norm_num [stateWithValidCalib, initialState, Config.GYRO_DEADBAND, habs]

/-- C4: for every raw accel/gyro input, when the committed calibration is
not valid, `correctSensorData` returns the inputs unchanged with the
result flagged invalid, and the engine state is left untouched (the live
correction path never fails and never changes engine state). -/
theorem C4_correction_invalid_passthrough (s : EngineState) (ra rg : Vector3D)
    (h : s.calibData.isValid = false) :
    correctSensorData s ra rg =
      ({ accel := ra, gyro := rg, isValid := false }, s) := by
  rw [correctSensorData]
  simp [h]

/-- Witness for C4: the freshly constructed engine (invalid calibration)
passes a large-magnitude accel vector and a zero gyro vector through
unchanged, flagged invalid, leaving the state unchanged. -/
theorem C4_correction_invalid_passthrough_witness :
    initialState.calibData.isValid = false ∧
    correctSensorData initialState ⟨1000000, -1000000, 1000000⟩ Vector3D.zero =
      ({ accel := ⟨1000000, -1000000, 1000000⟩, gyro := Vector3D.zero,
         isValid := false }, initialState) :=
  ⟨rfl, C4_correction_invalid_passthrough initialState _ _ rfl⟩

/-- C5: during either sampling phase (`QUICK_STATIC_FLAT` or
`QUICK_STATIC_SIDE`), for every in-progress count `k < QUICK_SAMPLES`, a
`processCalibration` step whose gyro sample has magnitude above the
movement tolerance resets the phase's sample count to 0, stores nothing
(the stored window becomes empty, discarding all `k` previously collected
samples), and changes nothing else — in particular it does not advance
the state. -/
theorem C5_movement_rejection (inp : SensorInput) (s : EngineState)
    (hp : s.calibrationInProgress = true)
    (hs : s.currentState = CalibrationState.QUICK_STATIC_FLAT ∨
          s.currentState = CalibrationState.QUICK_STATIC_SIDE)
    (hk : s.sampleCount < Config.QUICK_SAMPLES)
    (hm : Vector3D.magSq inp.gyro > Config.MOVEMENT_TOLERANCE ^ 2) :
    processCalibration inp s =
      { s with sampleCount := 0
               accelSamples := s.accelSamples.map (fun _ => [])
               gyroSamples := s.gyroSamples.map (fun _ => []) } := by
  rcases hs with hs | hs
  · rw [processCalibration_dispatch_flat inp s hp hs, handleQuickStaticFlat,
        if_pos hk, if_pos hm]
  · rw [processCalibration_dispatch_side inp s hp hs, handleQuickStaticSide,
        if_pos hk, if_pos hm]

/-- Witness for C5: with 3 of 200 flat samples collected, a gyro reading
of magnitude 30 > 20 resets the count to 0 and empties the window without
advancing the state. -/
theorem C5_movement_rejection_witness :
    stateFlatPartial.sampleCount = 3 ∧
    Vector3D.magSq inputMoving.gyro > Config.MOVEMENT_TOLERANCE ^ 2 ∧
    processCalibration inputMoving stateFlatPartial =
      { stateFlatPartial with sampleCount := 0
                              accelSamples := some []
                              gyroSamples := some [] } := by
  have hm : Vector3D.magSq inputMoving.gyro > Config.MOVEMENT_TOLERANCE ^ 2 := by
    norm_num [inputMoving, Vector3D.magSq, Config.MOVEMENT_TOLERANCE]
  have h := C5_movement_rejection inputMoving stateFlatPartial rfl (Or.inl rfl)
    (by norm_num [stateFlatPartial, initialState, Config.QUICK_SAMPLES]) hm
  exact ⟨rfl, hm, h⟩

/-- Counterexample for C8: with the allocation failing on an idle engine,
`startQuickCalibration` reports `MEMORY_ERROR` and leaves the engine state
entirely unchanged — in particular the engine does NOT transition to
`FAILED` as the claim states (it stays in `IDLE`). -/
theorem C8_alloc_failure_counterexample :
    (startQuickCalibration false 0 initialState).2 = ErrorCode.MEMORY_ERROR ∧
    (startQuickCalibration false 0 initialState).1 = initialState ∧
    (startQuickCalibration false 0 initialState).1.currentState =
      CalibrationState.IDLE ∧
    (startQuickCalibration false 0 initialState).1.currentState ≠
      CalibrationState.FAILED := by
  refine ⟨rfl, rfl, rfl, ?_⟩
  intro hcontra
  exact absurd (rfl.trans hcontra)
    (by simp : CalibrationState.IDLE ≠ CalibrationState.FAILED)

/-- C8 as amended: if sample-buffer allocation fails in
`startQuickCalibration`, the failure is reported as an error to the
caller, no sampling phase is entered (`calibrationInProgress` remains
false since the state is returned unchanged) — but the engine does not
transition to `FAILED`; its state is left untouched. -/
theorem C8_alloc_failure_amended (now : ℕ) (s : EngineState)
    (h : s.calibrationInProgress = false) :
    startQuickCalibration false now s = (s, ErrorCode.MEMORY_ERROR) := by
  rw [startQuickCalibration]
  simp [h]

/-- Witness for C8 (amended): the idle initial engine with a failing
allocation. -/
theorem C8_alloc_failure_amended_witness :
    initialState.calibrationInProgress = false ∧
    startQuickCalibration false 5 initialState =
      (initialState, ErrorCode.MEMORY_ERROR) :=
  ⟨rfl, C8_alloc_failure_amended 5 initialState rfl⟩

/-- C9: abort is idempotent.  When no calibration is in progress,
`abortCalibration` is a no-op leaving the whole engine state unchanged;
when one is in progress it releases both sample buffers (sets them to
`none`) and transitions to `FAILED`; and a second consecutive abort is
always a no-op on the result of the first (so no second buffer release
happens). -/
theorem C9_abort_idempotent (now now2 : ℕ) (s : EngineState) :
    (s.calibrationInProgress = false → abortCalibration now s = s) ∧
    (s.calibrationInProgress = true →
      (abortCalibration now s).currentState = CalibrationState.FAILED ∧
      (abortCalibration now s).accelSamples = none ∧
      (abortCalibration now s).gyroSamples = none ∧
      (abortCalibration now s).calibrationInProgress = false ∧
      (abortCalibration now s).calibData.isValid = false) ∧
    abortCalibration now2 (abortCalibration now s) = abortCalibration now s := by
  refine ⟨?_, ?_, ?_⟩
  · intro h
    rw [abortCalibration]
    simp [h]
  · intro h
    rw [abortCalibration]
    simp only [h, Bool.not_true, Bool.false_eq_true, if_false]
    exact ⟨rfl, rfl, rfl, rfl, rfl⟩
  · cases h : s.calibrationInProgress with
    | false =>
      have e : abortCalibration now s = s := by rw [abortCalibration]; simp [h]
      rw [e, abortCalibration]
      simp [h]
    | true =>
      have e : (abortCalibration now s).calibrationInProgress = false := by
        rw [abortCalibration]
        simp only [h, Bool.not_true, Bool.false_eq_true, if_false]
        rfl
      conv_lhs => rw [abortCalibration]
      simp [e]

/-- Witness for C9: aborting a stabilizing run transitions to `FAILED`
and releases the buffers; a second abort changes nothing, and abort on
the idle initial engine is a no-op. -/
theorem C9_abort_idempotent_witness :
    stateStabilizingRun1.calibrationInProgress = true ∧
    (abortCalibration 600 stateStabilizingRun1).currentState =
      CalibrationState.FAILED ∧
    (abortCalibration 600 stateStabilizingRun1).accelSamples = none ∧
    abortCalibration 700 (abortCalibration 600 stateStabilizingRun1) =
      abortCalibration 600 stateStabilizingRun1 ∧
    abortCalibration 800 initialState = initialState := by
  have h1 := C9_abort_idempotent 600 700 stateStabilizingRun1
  have h2 := C9_abort_idempotent 800 0 initialState
  exact ⟨rfl, (h1.2.1 rfl).1, (h1.2.1 rfl).2.1, h1.2.2, h2.1 rfl⟩

/-- Counterexample for C7: the committed `CalibrationResult` is modified
outside successful completion in three ways.  (i) `startQuickCalibration`
(accepted) and `abortCalibration` (in progress) flip the previously
committed result's `isValid` flag to false.  (ii) The flat-window-full
step of `processCalibration` overwrites the previously committed
`gyroBias` `(0, 1/10, 0)` with the new flat-window mean `(1/100, 0, 0)`
mid-run — the step ends in `QUICK_WAITING_ROTATION`, not in a completed
state.  (iii) The side-window-full step overwrites the previously
committed `accelScale` 1 with the computed value 100 even though the
range check fails and no valid result is committed (`isValid` stays
false). -/
theorem C7_commit_only_counterexample :
    stateWithValidCalib.calibData.isValid = true ∧
    stateWithValidCalib.calibrationInProgress = false ∧
    (startQuickCalibration true 0 stateWithValidCalib).1.calibData.isValid = false ∧
    (abortCalibration 0
        { stateWithValidCalib with calibrationInProgress := true }).calibData.isValid
      = false ∧
    stateFlatFullWithCalib.calibData.gyroBias = ⟨0, 1 / 10, 0⟩ ∧
    (processCalibration inputQuiet5000 stateFlatFullWithCalib).calibData.gyroBias
      = ⟨1 / 100, 0, 0⟩ ∧
    (processCalibration inputQuiet5000 stateFlatFullWithCalib).currentState =
      CalibrationState.QUICK_WAITING_ROTATION ∧
    (⟨1 / 100, 0, 0⟩ : Vector3D) ≠ ⟨0, 1 / 10, 0⟩ ∧
    stateSideFullSmall.calibData.accelScale = 1 ∧
    (processCalibration inputQuiet5000 stateSideFullSmall).calibData.accelScale
      = 100 ∧
    (processCalibration inputQuiet5000 stateSideFullSmall).calibData.isValid
      = false := by
  have hcountF : ¬ stateFlatFullWithCalib.sampleCount < Config.QUICK_SAMPLES := by
    norm_num [stateFlatFullWithCalib, stateWithValidCalib, initialState,
      Config.QUICK_SAMPLES]
  have hcountS : ¬ stateSideFullSmall.sampleCount < Config.QUICK_SAMPLES := by
    norm_num [stateSideFullSmall, initialState, Config.QUICK_SAMPLES]
  have hmeanF : calculateMean (List.replicate 200 (⟨1 / 100, 0, 0⟩ : Vector3D))
      Config.QUICK_SAMPLES = ⟨1 / 100, 0, 0⟩ :=
    calculateMean_replicate 200 (by norm_num) _
  have hmeanS : calculateMean (stateSideFullSmall.accelSamples.getD [])
      Config.QUICK_SAMPLES = smallSideSample := by
    show calculateMean (List.replicate 200 smallSideSample)
      Config.QUICK_SAMPLES = smallSideSample
    exact calculateMean_replicate 200 (by norm_num) smallSideSample
  have hflatSm : stateSideFullSmall.flatAccelMean = ⟨0, 0, 1 / 100⟩ := rfl
  have hscale : Config.GRAVITY_MAGNITUDE /
      ((|stateSideFullSmall.flatAccelMean.z| +
        |(calculateMean (stateSideFullSmall.accelSamples.getD [])
           Config.QUICK_SAMPLES).x|) / 2) = 100 := by
    have habs : |(1 : ℚ) / 100| = 1 / 100 := abs_of_pos (by norm_num)
    rw [hmeanS, hflatSm]
    norm_num [Config.GRAVITY_MAGNITUDE, smallSideSample, habs]
  have hfailSide := calculateSidePosition_fail inputQuiet5000.now
    stateSideFullSmall
    (by rw [hscale]; right; norm_num [Config.MAX_SCALE_FACTOR])
  refine ⟨rfl, rfl, rfl, rfl, rfl, ?_, ?_, ?_, rfl, ?_, ?_⟩
  · rw [processCalibration_dispatch_flat inputQuiet5000 stateFlatFullWithCalib
        rfl rfl,
      handleQuickStaticFlat_full inputQuiet5000 stateFlatFullWithCalib hcountF]
    exact hmeanF
  · rw [processCalibration_dispatch_flat inputQuiet5000 stateFlatFullWithCalib
        rfl rfl,
      handleQuickStaticFlat_full inputQuiet5000 stateFlatFullWithCalib hcountF]
    rfl
  · intro hv
    exact absurd hv (by norm_num [Vector3D.mk.injEq])
  · rw [processCalibration_dispatch_side inputQuiet5000 stateSideFullSmall
        rfl rfl,
      handleQuickStaticSide_full inputQuiet5000 stateSideFullSmall hcountS]
    show (calculateSidePosition inputQuiet5000.now
      stateSideFullSmall).calibData.accelScale = 100
    rw [hfailSide.2.2, hscale]
  · rw [processCalibration_dispatch_side inputQuiet5000 stateSideFullSmall
        rfl rfl,
      handleQuickStaticSide_full inputQuiet5000 stateSideFullSmall hcountS]
    show (calculateSidePosition inputQuiet5000.now
      stateSideFullSmall).calibData.isValid = false
    rw [hfailSide.2.1]
    rfl

/-- C7 as amended: the committed `CalibrationResult` is written not only
on successful completion but in exactly these ways, and in no other:
(1, 2) `startQuickCalibration` and `abortCalibration` never change the
coefficient fields (`accelBias`, `gyroBias`, `accelScale`); (3) an
accepted start clears `isValid`; (4) a start while a run is in progress
and (5) a start whose allocation fails return the state entirely
unchanged; (6) an abort of an in-progress run clears `isValid`; (7) an
abort when idle is a full no-op; (8) the correction function never
changes the state; (9) every `processCalibration` step other than a
window-full step leaves the committed result unchanged; (10) the
flat-window-full step overwrites exactly `gyroBias` (with the flat-window
gyro mean, mid-run); (11) the side-window-full step overwrites
`accelScale` with the computed scale even when the range check fails
(everything else preserved in that case), and on a passing check
additionally writes `accelBias` and sets `isValid` — so `accelBias` alone
is written only on successful completion. -/
theorem C7_commit_only_amended :
    (∀ (allocOk : Bool) (now : ℕ) (s : EngineState),
      (startQuickCalibration allocOk now s).1.calibData.accelBias =
        s.calibData.accelBias ∧
      (startQuickCalibration allocOk now s).1.calibData.gyroBias =
        s.calibData.gyroBias ∧
      (startQuickCalibration allocOk now s).1.calibData.accelScale =
        s.calibData.accelScale) ∧
    (∀ (now : ℕ) (s : EngineState),
      (abortCalibration now s).calibData.accelBias = s.calibData.accelBias ∧
      (abortCalibration now s).calibData.gyroBias = s.calibData.gyroBias ∧
      (abortCalibration now s).calibData.accelScale = s.calibData.accelScale) ∧
    (∀ (allocOk : Bool) (now : ℕ) (s : EngineState),
      s.calibrationInProgress = false → allocOk = true →
      (startQuickCalibration allocOk now s).1.calibData.isValid = false) ∧
    (∀ (allocOk : Bool) (now : ℕ) (s : EngineState),
      s.calibrationInProgress = true →
      (startQuickCalibration allocOk now s).1 = s) ∧
    (∀ (now : ℕ) (s : EngineState),
      s.calibrationInProgress = false →
      (startQuickCalibration false now s).1 = s) ∧
    (∀ (now : ℕ) (s : EngineState),
      s.calibrationInProgress = true →
      (abortCalibration now s).calibData.isValid = false) ∧
    (∀ (now : ℕ) (s : EngineState),
      s.calibrationInProgress = false →
      abortCalibration now s = s) ∧
    (∀ (s : EngineState) (ra rg : Vector3D),
      (correctSensorData s ra rg).2 = s) ∧
    (∀ (inp : SensorInput) (s : EngineState),
      s.calibrationInProgress = false ∨
        ((s.currentState = CalibrationState.QUICK_STATIC_FLAT ∨
          s.currentState = CalibrationState.QUICK_STATIC_SIDE) →
         s.sampleCount < Config.QUICK_SAMPLES) →
      (processCalibration inp s).calibData = s.calibData) ∧
    (∀ (inp : SensorInput) (s : EngineState),
      s.calibrationInProgress = true →
      s.currentState = CalibrationState.QUICK_STATIC_FLAT →
      ¬ s.sampleCount < Config.QUICK_SAMPLES →
      (processCalibration inp s).calibData =
        { s.calibData with gyroBias :=
            (calculateMean (s.gyroSamples.getD []) Config.QUICK_SAMPLES) }) ∧
    (∀ (inp : SensorInput) (s : EngineState),
      s.calibrationInProgress = true →
      s.currentState = CalibrationState.QUICK_STATIC_SIDE →
      ¬ s.sampleCount < Config.QUICK_SAMPLES →
      (processCalibration inp s).calibData.accelScale =
        Config.GRAVITY_MAGNITUDE /
          ((|s.flatAccelMean.z| +
            |(calculateMean (s.accelSamples.getD [])
               Config.QUICK_SAMPLES).x|) / 2) ∧
      (processCalibration inp s).calibData.gyroBias = s.calibData.gyroBias ∧
      (Config.GRAVITY_MAGNITUDE /
          ((|s.flatAccelMean.z| +
            |(calculateMean (s.accelSamples.getD [])
               Config.QUICK_SAMPLES).x|) / 2) < Config.MIN_SCALE_FACTOR ∨
       Config.MAX_SCALE_FACTOR <
         Config.GRAVITY_MAGNITUDE /
          ((|s.flatAccelMean.z| +
            |(calculateMean (s.accelSamples.getD [])
               Config.QUICK_SAMPLES).x|) / 2) →
        (processCalibration inp s).calibData =
          { s.calibData with accelScale :=
              (Config.GRAVITY_MAGNITUDE /
                ((|s.flatAccelMean.z| +
                  |(calculateMean (s.accelSamples.getD [])
                     Config.QUICK_SAMPLES).x|) / 2)) }) ∧
      (¬ (Config.GRAVITY_MAGNITUDE /
          ((|s.flatAccelMean.z| +
            |(calculateMean (s.accelSamples.getD [])
               Config.QUICK_SAMPLES).x|) / 2) < Config.MIN_SCALE_FACTOR ∨
          Config.MAX_SCALE_FACTOR <
            Config.GRAVITY_MAGNITUDE /
          ((|s.flatAccelMean.z| +
            |(calculateMean (s.accelSamples.getD [])
               Config.QUICK_SAMPLES).x|) / 2)) →
        (processCalibration inp s).calibData =
          { accelBias := ⟨s.flatAccelMean.x *
              (Config.GRAVITY_MAGNITUDE /
                ((|s.flatAccelMean.z| +
                  |(calculateMean (s.accelSamples.getD [])
                     Config.QUICK_SAMPLES).x|) / 2)),
             (s.flatAccelMean.y +
                (calculateMean (s.accelSamples.getD [])
                  Config.QUICK_SAMPLES).y) *
              (Config.GRAVITY_MAGNITUDE /
                ((|s.flatAccelMean.z| +
                  |(calculateMean (s.accelSamples.getD [])
                     Config.QUICK_SAMPLES).x|) / 2)) / 2,
             (calculateMean (s.accelSamples.getD [])
               Config.QUICK_SAMPLES).z *
              (Config.GRAVITY_MAGNITUDE /
                ((|s.flatAccelMean.z| +
                  |(calculateMean (s.accelSamples.getD [])
                     Config.QUICK_SAMPLES).x|) / 2))⟩,
            gyroBias := s.calibData.gyroBias,
            accelScale := Config.GRAVITY_MAGNITUDE /
              ((|s.flatAccelMean.z| +
                |(calculateMean (s.accelSamples.getD [])
                   Config.QUICK_SAMPLES).x|) / 2),
            isValid := true })) := by
  refine ⟨?_, ?_, ?_, ?_, ?_, ?_, ?_, ?_, ?_, ?_, ?_⟩
  · intro allocOk now s
    rw [startQuickCalibration]
    split
    · exact ⟨rfl, rfl, rfl⟩
    · split
      · exact ⟨rfl, rfl, rfl⟩
      · exact ⟨rfl, rfl, rfl⟩
  · intro now s
    rw [abortCalibration]
    split
    · exact ⟨rfl, rfl, rfl⟩
    · exact ⟨rfl, rfl, rfl⟩
  · intro allocOk now s h hok
    rw [startQuickCalibration]
    simp [h, hok]
    rfl
  · intro allocOk now s h
    rw [startQuickCalibration]
    simp [h]
  · intro now s h
    rw [startQuickCalibration]
    simp [h]
  · intro now s h
    rw [abortCalibration]
    simp only [h, Bool.not_true, Bool.false_eq_true, if_false]
    rfl
  · intro now s h
    rw [abortCalibration]
    simp [h]
  · intro s ra rg
    rw [correctSensorData]
    split
    · rfl
    · rfl
  · intro inp s h
    rw [processCalibration]
    cases hp : s.calibrationInProgress with
    | false => simp [hp]
    | true =>
      simp only [hp, Bool.not_true, Bool.false_eq_true, if_false]
      have hk : (s.currentState = CalibrationState.QUICK_STATIC_FLAT ∨
          s.currentState = CalibrationState.QUICK_STATIC_SIDE) →
          s.sampleCount < Config.QUICK_SAMPLES := by
        rcases h with h | h
        · rw [hp] at h
          exact absurd h (by simp)
        · exact h
      cases hst : s.currentState
      · rfl
      · show (handleQuickStaticFlat inp s).calibData = s.calibData
        rw [handleQuickStaticFlat, if_pos (hk (Or.inl hst))]
        split
        · rfl
        · dsimp only
          split
          · rfl
          · rfl
      · show (handleQuickWaitingRotation inp s).calibData = s.calibData
        rw [handleQuickWaitingRotation]
        split
        · rfl
        · rfl
      · show (handleQuickStabilizing inp s).calibData = s.calibData
        rw [handleQuickStabilizing]
        split
        · split
          · rfl
          · split
            · rfl
            · rfl
        · rfl
      · show (handleQuickStaticSide inp s).calibData = s.calibData
        rw [handleQuickStaticSide, if_pos (hk (Or.inr hst))]
        split
        · rfl
        · dsimp only
          split
          · rfl
          · rfl
      · rfl
      · rfl
  · intro inp s hp hs hc
    rw [processCalibration_dispatch_flat inp s hp hs,
        handleQuickStaticFlat_full inp s hc]
    rfl
  · intro inp s hp hs hc
    rw [processCalibration_dispatch_side inp s hp hs,
        handleQuickStaticSide_full inp s hc]
    by_cases hchk : (Config.GRAVITY_MAGNITUDE /
        ((|s.flatAccelMean.z| +
          |(calculateMean (s.accelSamples.getD [])
             Config.QUICK_SAMPLES).x|) / 2) < Config.MIN_SCALE_FACTOR ∨
      Config.MAX_SCALE_FACTOR <
        Config.GRAVITY_MAGNITUDE /
        ((|s.flatAccelMean.z| +
          |(calculateMean (s.accelSamples.getD [])
             Config.QUICK_SAMPLES).x|) / 2))
    · have hfail : (calculateSidePosition inp.now s).calibData =
          { s.calibData with accelScale :=
              (Config.GRAVITY_MAGNITUDE /
                ((|s.flatAccelMean.z| +
                  |(calculateMean (s.accelSamples.getD [])
                     Config.QUICK_SAMPLES).x|) / 2)) } := by
        rw [calculateSidePosition]
        rcases hchk with h | h
        · simp only [if_pos (Or.inl h)]
          rfl
        · simp only [if_pos (Or.inr (by exact h))]
          rfl
      refine ⟨?_, ?_, ?_, ?_⟩
      · show (calculateSidePosition inp.now s).calibData.accelScale = _
        rw [hfail]
      · show (calculateSidePosition inp.now s).calibData.gyroBias = _
        rw [hfail]
      · intro _
        show (calculateSidePosition inp.now s).calibData = _
        exact hfail
      · intro hok
        exact absurd hchk hok
    · have hok : (calculateSidePosition inp.now s).calibData =
          { accelBias := ⟨s.flatAccelMean.x *
              (Config.GRAVITY_MAGNITUDE /
                ((|s.flatAccelMean.z| +
                  |(calculateMean (s.accelSamples.getD [])
                     Config.QUICK_SAMPLES).x|) / 2)),
             (s.flatAccelMean.y +
                (calculateMean (s.accelSamples.getD [])
                  Config.QUICK_SAMPLES).y) *
              (Config.GRAVITY_MAGNITUDE /
                ((|s.flatAccelMean.z| +
                  |(calculateMean (s.accelSamples.getD [])
                     Config.QUICK_SAMPLES).x|) / 2)) / 2,
             (calculateMean (s.accelSamples.getD [])
               Config.QUICK_SAMPLES).z *
              (Config.GRAVITY_MAGNITUDE /
                ((|s.flatAccelMean.z| +
                  |(calculateMean (s.accelSamples.getD [])
                     Config.QUICK_SAMPLES).x|) / 2))⟩,
            gyroBias := s.calibData.gyroBias,
            accelScale := Config.GRAVITY_MAGNITUDE /
              ((|s.flatAccelMean.z| +
                |(calculateMean (s.accelSamples.getD [])
                   Config.QUICK_SAMPLES).x|) / 2),
            isValid := true } := by
        rw [calculateSidePosition]
        simp only [if_neg hchk]
        rfl
      refine ⟨?_, ?_, ?_, ?_⟩
      · show (calculateSidePosition inp.now s).calibData.accelScale = _
        rw [hok]
      · show (calculateSidePosition inp.now s).calibData.gyroBias = _
        rw [hok]
      · intro hbad
        exact absurd hbad hchk
      · intro _
        show (calculateSidePosition inp.now s).calibData = _
        exact hok

/-- Witness for C7 (amended): start on an engine holding a valid
committed result keeps the coefficients (scale 11/10) but clears
`isValid`; abort on an in-progress engine keeps the gyro bias
(0, 1/10, 0) and clears `isValid`; a rejected start, an allocation-failed
start, an idle abort and the correction function leave the state
untouched; a non-full sampling step preserves the committed result; the
flat-full step overwrites the committed `gyroBias` with the window mean
`(1/100, 0, 0)`; and the failed-check side-full step overwrites the
committed `accelScale` with 100. -/
theorem C7_commit_only_amended_witness :
    (startQuickCalibration true 3 stateWithValidCalib).1.calibData.accelScale =
      11 / 10 ∧
    (startQuickCalibration true 3 stateWithValidCalib).1.calibData.isValid = false ∧
    (abortCalibration 4
        { stateWithValidCalib with calibrationInProgress := true }).calibData.gyroBias
      = ⟨0, 1 / 10, 0⟩ ∧
    (abortCalibration 4
        { stateWithValidCalib with calibrationInProgress := true }).calibData.isValid
      = false ∧
    (startQuickCalibration true 5
        { stateWithValidCalib with calibrationInProgress := true }).1 =
      { stateWithValidCalib with calibrationInProgress := true } ∧
    (startQuickCalibration false 6 stateWithValidCalib).1 = stateWithValidCalib ∧
    abortCalibration 7 stateWithValidCalib = stateWithValidCalib ∧
    (correctSensorData stateWithValidCalib ⟨1, 0, 0⟩ Vector3D.zero).2 =
      stateWithValidCalib ∧
    (processCalibration inputQuiet5000 stateFlatPartial).calibData =
      stateFlatPartial.calibData ∧
    (processCalibration inputQuiet5000 stateFlatFullWithCalib).calibData.gyroBias
      = ⟨1 / 100, 0, 0⟩ ∧
    (processCalibration inputQuiet5000 stateSideFullSmall).calibData.accelScale
      = 100 := by
  obtain ⟨hA, hB, hC, hCr, hCf, hD, hE, hF, hG, hH, hI⟩ := C7_commit_only_amended
  have hcountF : ¬ stateFlatFullWithCalib.sampleCount < Config.QUICK_SAMPLES := by
    norm_num [stateFlatFullWithCalib, stateWithValidCalib, initialState,
      Config.QUICK_SAMPLES]
  have hcountS : ¬ stateSideFullSmall.sampleCount < Config.QUICK_SAMPLES := by
    norm_num [stateSideFullSmall, initialState, Config.QUICK_SAMPLES]
  have hmeanF : calculateMean (List.replicate 200 (⟨1 / 100, 0, 0⟩ : Vector3D))
      Config.QUICK_SAMPLES = ⟨1 / 100, 0, 0⟩ :=
    calculateMean_replicate 200 (by norm_num) _
  have hmeanS : calculateMean (stateSideFullSmall.accelSamples.getD [])
      Config.QUICK_SAMPLES = smallSideSample := by
    show calculateMean (List.replicate 200 smallSideSample)
      Config.QUICK_SAMPLES = smallSideSample
    exact calculateMean_replicate 200 (by norm_num) smallSideSample
  have hflatSm : stateSideFullSmall.flatAccelMean = ⟨0, 0, 1 / 100⟩ := rfl
  have hscale : Config.GRAVITY_MAGNITUDE /
      ((|stateSideFullSmall.flatAccelMean.z| +
        |(calculateMean (stateSideFullSmall.accelSamples.getD [])
           Config.QUICK_SAMPLES).x|) / 2) = 100 := by
    have habs : |(1 : ℚ) / 100| = 1 / 100 := abs_of_pos (by norm_num)
    rw [hmeanS, hflatSm]
    norm_num [Config.GRAVITY_MAGNITUDE, smallSideSample, habs]
  refine ⟨?_, hC true 3 stateWithValidCalib rfl rfl, ?_,
    hD 4 { stateWithValidCalib with calibrationInProgress := true } rfl,
    hCr true 5 { stateWithValidCalib with calibrationInProgress := true } rfl,
    hCf 6 stateWithValidCalib rfl,
    hE 7 stateWithValidCalib rfl,
    hF stateWithValidCalib ⟨1, 0, 0⟩ Vector3D.zero, ?_, ?_, ?_⟩
  · rw [(hA true 3 stateWithValidCalib).2.2]
    rfl
  · rw [(hB 4 { stateWithValidCalib with calibrationInProgress := true }).2.1]
    rfl
  · exact hG inputQuiet5000 stateFlatPartial
      (Or.inr (fun _ => by
        norm_num [stateFlatPartial, initialState, Config.QUICK_SAMPLES]))
  · have h := hH inputQuiet5000 stateFlatFullWithCalib rfl rfl hcountF
    rw [h]
    exact hmeanF
  · have h := (hI inputQuiet5000 stateSideFullSmall rfl rfl hcountS).1
    rw [h, hscale]

/-- C1 (code bug): with the side window full of tiny-magnitude samples the
computed `accelScale` is 100, far outside `[MIN_SCALE_FACTOR,
MAX_SCALE_FACTOR]`, and `calculateSidePosition` transitions to `FAILED` —
but its caller `handleQuickStaticSide` then unconditionally transitions to
`QUICK_COMPLETE`, so at the end of the `processCalibration` call the
engine is in `QUICK_COMPLETE`, not in the `FAILED` state the claim (and
the in-function transition) require.  The calibration data does remain
invalid. -/
theorem C1_scale_out_of_range_ends_in_complete :
    (processCalibration inputQuiet5000 stateSideFullSmall).calibData.accelScale
      = 100 ∧
    Config.MAX_SCALE_FACTOR < 100 ∧
    (processCalibration inputQuiet5000 stateSideFullSmall).currentState =
      CalibrationState.QUICK_COMPLETE ∧
    (processCalibration inputQuiet5000 stateSideFullSmall).currentState ≠
      CalibrationState.FAILED ∧
    (processCalibration inputQuiet5000 stateSideFullSmall).calibData.isValid
      = false := by
  have hmean : calculateMean (stateSideFullSmall.accelSamples.getD [])
      Config.QUICK_SAMPLES = smallSideSample := by
    show calculateMean (List.replicate 200 smallSideSample)
      Config.QUICK_SAMPLES = smallSideSample
    exact calculateMean_replicate 200 (by norm_num) smallSideSample
  have hflat : stateSideFullSmall.flatAccelMean = ⟨0, 0, 1 / 100⟩ := rfl
  have hscale : Config.GRAVITY_MAGNITUDE /
      ((|stateSideFullSmall.flatAccelMean.z| +
        |(calculateMean (stateSideFullSmall.accelSamples.getD [])
           Config.QUICK_SAMPLES).x|) / 2) = 100 := by
    have habs : |(1 : ℚ) / 100| = 1 / 100 := abs_of_pos (by norm_num)
    rw [hmean, hflat]
    norm_num [Config.GRAVITY_MAGNITUDE, smallSideSample, habs]
  rw [processCalibration_dispatch_side inputQuiet5000 stateSideFullSmall rfl rfl,
      handleQuickStaticSide_full inputQuiet5000 stateSideFullSmall
        (by norm_num [stateSideFullSmall, initialState, Config.QUICK_SAMPLES])]
  have hfail := calculateSidePosition_fail inputQuiet5000.now stateSideFullSmall
    (by rw [hscale]; right; norm_num [Config.MAX_SCALE_FACTOR])
  refine ⟨?_, by norm_num [Config.MAX_SCALE_FACTOR], rfl, ?_, ?_⟩
  · show (calculateSidePosition inputQuiet5000.now stateSideFullSmall).calibData.accelScale = 100
    rw [hfail.2.2, hscale]
  · intro hcontra
    exact CalibrationState.noConfusion
      (show CalibrationState.QUICK_COMPLETE = CalibrationState.FAILED from hcontra)
  · show (calculateSidePosition inputQuiet5000.now stateSideFullSmall).calibData.isValid = false
    rw [hfail.2.1]
    rfl

/-- C6 (code bug): the debounce timer of `handleQuickStabilizing` is a
function-local C++ `static`, so it survives `abortCalibration` and a
subsequent restart.  Run 1 observed one still sample at t=500ms (timer
started at 500); abort at t=600 leaves the timer at 500 and a restart at
t=700 does not reset it either; when run 2 re-enters `QUICK_STABILIZING`
the very first still sample at t=2000 fires the transition to
`QUICK_STATIC_SIDE` immediately (2000−500 > STABLE_DURATION), with no
continuous stillness within the current run.  With a correctly un-started
timer the same sample only starts the timer. -/
theorem C6_stale_debounce_timer :
    (abortCalibration 600 stateStabilizingRun1).stableStartTime = 500 ∧
    (abortCalibration 600 stateStabilizingRun1).currentState =
      CalibrationState.FAILED ∧
    (startQuickCalibration true 700
        (abortCalibration 600 stateStabilizingRun1)).1.stableStartTime = 500 ∧
    (startQuickCalibration true 700
        (abortCalibration 600 stateStabilizingRun1)).1.currentState =
      CalibrationState.QUICK_STATIC_FLAT ∧
    Vector3D.magSq inputStill2000.gyro < Config.STILLNESS_THRESHOLD ^ 2 ∧
    (processCalibration inputStill2000 stateStabilizingRun2).currentState =
      CalibrationState.QUICK_STATIC_SIDE ∧
    (processCalibration inputStill2000 stateStabilizingFresh).currentState =
      CalibrationState.QUICK_STABILIZING ∧
    (processCalibration inputStill2000 stateStabilizingFresh).stableStartTime
      = 2000 := by
  have hstill : Vector3D.magSq inputStill2000.gyro <
      Config.STILLNESS_THRESHOLD ^ 2 := by
    norm_num [inputStill2000, Vector3D.magSq, Vector3D.zero,
      Config.STILLNESS_THRESHOLD]
  refine ⟨rfl, rfl, rfl, rfl, hstill, ?_, ?_, ?_⟩
  · rw [processCalibration_dispatch_stabilizing inputStill2000
        stateStabilizingRun2 rfl rfl, handleQuickStabilizing,
      if_pos hstill,
      if_neg (by norm_num [stateStabilizingRun2, initialState] :
        ¬ stateStabilizingRun2.stableStartTime = 0),
      if_pos (by norm_num [inputStill2000, stateStabilizingRun2, initialState,
        Config.STABLE_DURATION] :
        inputStill2000.now - stateStabilizingRun2.stableStartTime >
          Config.STABLE_DURATION)]
    rfl
  · rw [processCalibration_dispatch_stabilizing inputStill2000
        stateStabilizingFresh rfl rfl, handleQuickStabilizing,
      if_pos hstill,
      if_pos (show stateStabilizingFresh.stableStartTime = 0 from rfl)]
    rfl
  · rw [processCalibration_dispatch_stabilizing inputStill2000
        stateStabilizingFresh rfl rfl, handleQuickStabilizing,
      if_pos hstill,
      if_pos (show stateStabilizingFresh.stableStartTime = 0 from rfl)]
    rfl

/-- C10: the stored gyro window only ever contains samples of magnitude
at most `MOVEMENT_TOLERANCE` (a sample triggering movement rejection is
never stored), and consequently the committed `gyroBias` — the mean of
the flat-window gyro samples — has magnitude at most
`MOVEMENT_TOLERANCE`: the invariant `gyroInv` holds initially and is
preserved by every engine operation. -/
theorem C10_gyro_window_and_bias_bounded :
    gyroInv initialState ∧
    (∀ inp s, gyroInv s → gyroInv (processCalibration inp s)) ∧
    (∀ allocOk now s, gyroInv s →
      gyroInv (startQuickCalibration allocOk now s).1) ∧
    (∀ now s, gyroInv s → gyroInv (abortCalibration now s)) := by
  refine ⟨?_, gyroInv_processCalibration, gyroInv_startQuickCalibration,
    gyroInv_abortCalibration⟩
  constructor
  · intro v hv
    exact absurd hv (List.not_mem_nil v)
  · show Vector3D.magSq Vector3D.zero ≤ Config.MOVEMENT_TOLERANCE ^ 2
    norm_num [Vector3D.magSq, Vector3D.zero, Config.MOVEMENT_TOLERANCE]

/-- Witness for C10: the invariant holds of the fresh engine and is
preserved across one concrete movement-rejection step. -/
theorem C10_gyro_window_and_bias_bounded_witness :
    gyroInv initialState ∧
    gyroInv (processCalibration inputMoving stateFlatPartial) := by
  have hinv : gyroInv stateFlatPartial := by
    constructor
    · intro v hv
      have : v = Vector3D.zero := by
        simpa [stateFlatPartial] using List.eq_of_mem_replicate hv
      rw [this]
      norm_num [Vector3D.magSq, Vector3D.zero, Config.MOVEMENT_TOLERANCE]
    · show Vector3D.magSq Vector3D.zero ≤ Config.MOVEMENT_TOLERANCE ^ 2
      norm_num [Vector3D.magSq, Vector3D.zero, Config.MOVEMENT_TOLERANCE]
  exact ⟨C10_gyro_window_and_bias_bounded.1,
    C10_gyro_window_and_bias_bounded.2.1 inputMoving stateFlatPartial hinv⟩

/-- C2: the two-position commit.  (i) The step that finds the flat window
full commits `gyroBias = mean(flat gyro window)` and records
`flatAccelMean = mean(flat accel window)`, moving to
`QUICK_WAITING_ROTATION`; (ii) every step taken in the intermediate
states (`QUICK_WAITING_ROTATION`, `QUICK_STABILIZING`, or
`QUICK_STATIC_SIDE` while the side window is not yet full) preserves
`gyroBias` and `flatAccelMean`; (iii) the step that finds the side window
full, when the computed scale passes the range check, commits
`accelScale = GRAVITY_MAGNITUDE / ((|flatMean.z| + |sideMean.x|) / 2)`,
`accelBias = (flatMean.x*scale, (flatMean.y+sideMean.y)*scale/2,
sideMean.z*scale)`, preserves `gyroBias`, and sets `isValid := true`. -/
theorem C2_two_position_commit :
    (∀ (inp : SensorInput) (s : EngineState) (la lg : List Vector3D),
      s.calibrationInProgress = true →
      s.currentState = CalibrationState.QUICK_STATIC_FLAT →
      ¬ s.sampleCount < Config.QUICK_SAMPLES →
      s.accelSamples = some la →
      s.gyroSamples = some lg →
      (processCalibration inp s).calibData.gyroBias =
        calculateMean lg Config.QUICK_SAMPLES ∧
      (processCalibration inp s).flatAccelMean =
        calculateMean la Config.QUICK_SAMPLES ∧
      (processCalibration inp s).currentState =
        CalibrationState.QUICK_WAITING_ROTATION) ∧
    (∀ (inp : SensorInput) (s : EngineState),
      s.calibrationInProgress = true →
      (s.currentState = CalibrationState.QUICK_WAITING_ROTATION ∨
       s.currentState = CalibrationState.QUICK_STABILIZING ∨
       (s.currentState = CalibrationState.QUICK_STATIC_SIDE ∧
        s.sampleCount < Config.QUICK_SAMPLES)) →
      (processCalibration inp s).calibData.gyroBias = s.calibData.gyroBias ∧
      (processCalibration inp s).flatAccelMean = s.flatAccelMean) ∧
    (∀ (inp : SensorInput) (s : EngineState) (sa : List Vector3D),
      s.calibrationInProgress = true →
      s.currentState = CalibrationState.QUICK_STATIC_SIDE →
      ¬ s.sampleCount < Config.QUICK_SAMPLES →
      s.accelSamples = some sa →
      Config.MIN_SCALE_FACTOR ≤
        Config.GRAVITY_MAGNITUDE /
          ((|s.flatAccelMean.z| +
            |(calculateMean sa Config.QUICK_SAMPLES).x|) / 2) →
      Config.GRAVITY_MAGNITUDE /
          ((|s.flatAccelMean.z| +
            |(calculateMean sa Config.QUICK_SAMPLES).x|) / 2) ≤
        Config.MAX_SCALE_FACTOR →
      (processCalibration inp s).calibData.accelScale =
        Config.GRAVITY_MAGNITUDE /
          ((|s.flatAccelMean.z| +
            |(calculateMean sa Config.QUICK_SAMPLES).x|) / 2) ∧
      (processCalibration inp s).calibData.accelBias =
        ⟨s.flatAccelMean.x *
           (Config.GRAVITY_MAGNITUDE /
             ((|s.flatAccelMean.z| +
               |(calculateMean sa Config.QUICK_SAMPLES).x|) / 2)),
         (s.flatAccelMean.y + (calculateMean sa Config.QUICK_SAMPLES).y) *
           (Config.GRAVITY_MAGNITUDE /
             ((|s.flatAccelMean.z| +
               |(calculateMean sa Config.QUICK_SAMPLES).x|) / 2)) / 2,
         (calculateMean sa Config.QUICK_SAMPLES).z *
           (Config.GRAVITY_MAGNITUDE /
             ((|s.flatAccelMean.z| +
               |(calculateMean sa Config.QUICK_SAMPLES).x|) / 2))⟩ ∧
      (processCalibration inp s).calibData.gyroBias = s.calibData.gyroBias ∧
      (processCalibration inp s).calibData.isValid = true) := by
  refine ⟨?_, ?_, ?_⟩
  · intro inp s la lg hp hs hc ha hg
    rw [processCalibration_dispatch_flat inp s hp hs,
        handleQuickStaticFlat_full inp s hc]
    refine ⟨?_, ?_, rfl⟩
    · show (calculateFlatPosition s).calibData.gyroBias = _
      simp [calculateFlatPosition, hg]
    · show (calculateFlatPosition s).flatAccelMean = _
      simp [calculateFlatPosition, ha]
  · intro inp s hp hcase
    rcases hcase with hs | hs | ⟨hs, hk⟩
    · rw [processCalibration_dispatch_rotation inp s hp hs,
          handleQuickWaitingRotation]
      split
      · exact ⟨rfl, rfl⟩
      · exact ⟨rfl, rfl⟩
    · rw [processCalibration_dispatch_stabilizing inp s hp hs,
          handleQuickStabilizing]
      split
      · split
        · exact ⟨rfl, rfl⟩
        · split
          · exact ⟨rfl, rfl⟩
          · exact ⟨rfl, rfl⟩
      · exact ⟨rfl, rfl⟩
    · rw [processCalibration_dispatch_side inp s hp hs,
          handleQuickStaticSide, if_pos hk]
      split
      · exact ⟨rfl, rfl⟩
      · dsimp only
        split
        · exact ⟨rfl, rfl⟩
        · exact ⟨rfl, rfl⟩
  · intro inp s sa hp hs hc ha hmin hmax
    rw [processCalibration_dispatch_side inp s hp hs,
        handleQuickStaticSide_full inp s hc]
    have hna : s.accelSamples.getD [] = sa := by rw [ha]; rfl
    have hnot : ¬ (Config.GRAVITY_MAGNITUDE /
        ((|s.flatAccelMean.z| +
          |(calculateMean (s.accelSamples.getD [])
             Config.QUICK_SAMPLES).x|) / 2) < Config.MIN_SCALE_FACTOR ∨
        Config.MAX_SCALE_FACTOR <
          Config.GRAVITY_MAGNITUDE /
        ((|s.flatAccelMean.z| +
          |(calculateMean (s.accelSamples.getD [])
             Config.QUICK_SAMPLES).x|) / 2)) := by
      rw [hna]
      rintro (h | h)
      · exact absurd hmin (not_le.mpr h)
      · exact absurd hmax (not_le.mpr h)
    have hok := calculateSidePosition_ok inp.now s hnot
    rw [hna] at hok
    refine ⟨?_, ?_, ?_, ?_⟩
    · show (calculateSidePosition inp.now s).calibData.accelScale = _
      exact hok.1
    · show (calculateSidePosition inp.now s).calibData.accelBias = _
      exact hok.2.1
    · show (calculateSidePosition inp.now s).calibData.gyroBias = _
      exact hok.2.2.2.1
    · show (calculateSidePosition inp.now s).calibData.isValid = true
      exact hok.2.2.1

/-- Witness for C2: a flat window of 200 accel samples `(0, 0, 1)` and
gyro samples `(1/100, 0, 0)` commits `gyroBias = (1/100, 0, 0)` and
records `flatAccelMean = (0, 0, 1)`; a side window of 200 samples
`(1, 0, 0)` after that flat phase commits `accelScale = 1`,
`accelBias = (0, 0, 0)` and `isValid = true`. -/
theorem C2_two_position_commit_witness :
    (processCalibration inputQuiet5000 stateFlatFull).calibData.gyroBias =
      ⟨1 / 100, 0, 0⟩ ∧
    (processCalibration inputQuiet5000 stateFlatFull).flatAccelMean =
      ⟨0, 0, 1⟩ ∧
    (processCalibration inputQuiet5000 stateSideFullGood).calibData.accelScale
      = 1 ∧
    (processCalibration inputQuiet5000 stateSideFullGood).calibData.accelBias
      = ⟨0, 0, 0⟩ ∧
    (processCalibration inputQuiet5000 stateSideFullGood).calibData.isValid
      = true := by
  have hmeanG : calculateMean (List.replicate 200 (⟨1 / 100, 0, 0⟩ : Vector3D))
      Config.QUICK_SAMPLES = ⟨1 / 100, 0, 0⟩ :=
    calculateMean_replicate 200 (by norm_num) _
  have hmeanA : calculateMean (List.replicate 200 (⟨0, 0, 1⟩ : Vector3D))
      Config.QUICK_SAMPLES = ⟨0, 0, 1⟩ :=
    calculateMean_replicate 200 (by norm_num) _
  have hmeanS : calculateMean (List.replicate 200 (⟨1, 0, 0⟩ : Vector3D))
      Config.QUICK_SAMPLES = ⟨1, 0, 0⟩ :=
    calculateMean_replicate 200 (by norm_num) _
  have hflatS : stateSideFullGood.flatAccelMean = (⟨0, 0, 1⟩ : Vector3D) := rfl
  have hscaleS : Config.GRAVITY_MAGNITUDE /
      ((|stateSideFullGood.flatAccelMean.z| +
        |(calculateMean (List.replicate 200 (⟨1, 0, 0⟩ : Vector3D))
           Config.QUICK_SAMPLES).x|) / 2) = 1 := by
    rw [hmeanS, hflatS]
    norm_num [Config.GRAVITY_MAGNITUDE]
  have h1 := C2_two_position_commit.1 inputQuiet5000 stateFlatFull
    (List.replicate 200 ⟨0, 0, 1⟩) (List.replicate 200 ⟨1 / 100, 0, 0⟩)
    rfl rfl (by norm_num [stateFlatFull, initialState, Config.QUICK_SAMPLES])
    rfl rfl
  have h3 := C2_two_position_commit.2.2 inputQuiet5000 stateSideFullGood
    (List.replicate 200 ⟨1, 0, 0⟩) rfl rfl
    (by norm_num [stateSideFullGood, initialState, Config.QUICK_SAMPLES]) rfl
    (by rw [hscaleS]; norm_num [Config.MIN_SCALE_FACTOR])
    (by rw [hscaleS]; norm_num [Config.MAX_SCALE_FACTOR])
  refine ⟨?_, ?_, ?_, ?_, h3.2.2.2⟩
  · rw [h1.1, hmeanG]
  · rw [h1.2.1, hmeanA]
  · rw [h3.1, hscaleS]
  · rw [h3.2.1, hscaleS, hmeanS, hflatS]
    norm_num

end PowerFlux
